import Mathlib

/-!
Shallow embedding of `src/io.rs` of the `rust-postgres` transport layer:
socket opening (`open_socket`), the SSL negotiation state machine
(`initialize_stream`) and the unified stream wrapper (`MaybeSslStream`).

OS-level and provider-level effects (TCP/Unix connect, the openssl
handshake) and network I/O outcomes are modelled as explicit oracles;
the bytes written, the flush and the response byte read during the
negotiation are recorded as an event trace so that frame-format and
"no handshake performed" properties can be stated.
-/

/-- `const DEFAULT_PORT: Port = 5432;` from `io.rs`. -/
def DEFAULT_PORT : Nat := 5432

/-- The connection target, from the re-exports consumed by `io.rs`
(`TargetTcp`, `TargetUnix`).  A Rust `Path` is modelled as its list of
components; `Path::push` appends a component. -/
inductive PgTarget where
  | TargetTcp (host : String)
  | TargetUnix (path : List String)
deriving DecidableEq, Repr

/-- The fields of `ConnectParams` that `io.rs` reads: the target and the
optional port. -/
structure ConnectParams where
  target : PgTarget
  port : Option Nat
deriving DecidableEq, Repr

/-- `SslMode` (`NoSsl`, `PreferSsl(ctx)`, `RequireSsl(ctx)`); the ssl
context is an opaque type parameter `C`. -/
inductive SslMode (C : Type) where
  | NoSsl
  | PreferSsl (ctx : C)
  | RequireSsl (ctx : C)
deriving DecidableEq, Repr

/-- The variants of `PostgresConnectError` used by `io.rs`:
`SocketError` and `PgConnectStreamError` carry an underlying I/O
error (type parameter `IoErr`), `SslError` carries the ssl provider's
error (type parameter `SslErr`), `NoSslSupport` carries nothing. -/
inductive PostgresConnectError (IoErr SslErr : Type) where
  | SocketError (e : IoErr)
  | PgConnectStreamError (e : IoErr)
  | NoSslSupport
  | SslError (e : SslErr)
deriving DecidableEq, Repr

/-- `InternalStream`: tagged union of a TCP stream and a Unix domain
socket stream.  The underlying OS stream objects are opaque type
parameters `T` and `U`. -/
inductive InternalStream (T U : Type) where
  | TcpStream (s : T)
  | UnixStream (s : U)
deriving DecidableEq, Repr

/-- `MaybeSslStream<S>`: either `SslStream` (an encrypted wrapper,
opaque type parameter `V`) or `NormalStream` holding the raw stream
`S`. -/
inductive MaybeSslStream (V S : Type) where
  | SslStream (s : V)
  | NormalStream (s : S)
deriving DecidableEq, Repr

/-- The byte-stream contract of an underlying stream: bounded read
returning the bytes obtained and the advanced stream, write and flush
returning the advanced stream, each fallible with an I/O error. -/
structure StreamOps (S IoErr : Type) where
  read : S → Nat → Except IoErr (List Nat × S)
  write : S → List Nat → Except IoErr S
  flush : S → Except IoErr S

/-- `impl Reader for MaybeSslStream`: `read` dispatches to whichever
variant is held. -/
def MaybeSslStream.read {V S IoErr : Type}
    (sslOps : StreamOps V IoErr) (ops : StreamOps S IoErr) :
    MaybeSslStream V S → Nat → Except IoErr (List Nat × MaybeSslStream V S)
  | .SslStream s, n => (sslOps.read s n).map (fun p => (p.1, .SslStream p.2))
  | .NormalStream s, n => (ops.read s n).map (fun p => (p.1, .NormalStream p.2))

/-- `impl Writer for MaybeSslStream`: `write` dispatches to whichever
variant is held. -/
def MaybeSslStream.write {V S IoErr : Type}
    (sslOps : StreamOps V IoErr) (ops : StreamOps S IoErr) :
    MaybeSslStream V S → List Nat → Except IoErr (MaybeSslStream V S)
  | .SslStream s, buf => (sslOps.write s buf).map .SslStream
  | .NormalStream s, buf => (ops.write s buf).map .NormalStream

/-- `impl Writer for MaybeSslStream`: `flush` dispatches to whichever
variant is held. -/
def MaybeSslStream.flush {V S IoErr : Type}
    (sslOps : StreamOps V IoErr) (ops : StreamOps S IoErr) :
    MaybeSslStream V S → Except IoErr (MaybeSslStream V S)
  | .SslStream s => (sslOps.flush s).map .SslStream
  | .NormalStream s => (ops.flush s).map .NormalStream

/-- Big-endian 4-byte encoding of a 32-bit value, as bytes 0..255. -/
def u32be (n : Nat) : List Nat :=
  [n / 2 ^ 24 % 256, n / 2 ^ 16 % 256, n / 2 ^ 8 % 256, n % 256]

/-- Modelled from the spec: the 4-byte fixed magic code identifying an
encryption-upgrade request (`message::SSL_CODE`; the `message` module is
not under `src/`).  The PostgreSQL protocol value is
`(1234 << 16) | 5679`. -/
def SSL_CODE : Nat := 1234 * 2 ^ 16 + 5679

/-- Modelled from the spec: the negotiation request frame written by
`socket.write_message(&SslRequest { code: message::SSL_CODE })` — an
8-byte frame: 4-byte big-endian length equal to 8 followed by the 4-byte
magic code (`WriteMessage` lives in the absent `message` module). -/
def sslRequestFrame : List Nat := u32be 8 ++ u32be SSL_CODE

/-- `.s.PGSQL.<port>`: the filename pushed onto the domain-socket
directory in `open_socket`. -/
def pgsqlFileName (port : Nat) : String := ".s.PGSQL." ++ toString port

/-- `open_socket`.  The OS connect calls are oracles `tcpConnect` and
`unixConnect`.  Rust's `&ConnectParams` borrow is made explicit by
state passing: the second component is the value of the caller's
`params` when the call returns.  For a Unix target the code clones the
path (`let mut path = path.clone()`) and pushes the filename onto the
clone, so the returned `params` keeps the original path. -/
def open_socket {T U IoErr SslErr : Type}
    (tcpConnect : String → Nat → Except IoErr T)
    (unixConnect : List String → Except IoErr U)
    (params : ConnectParams) :
    Except (PostgresConnectError IoErr SslErr) (InternalStream T U) × ConnectParams :=
  let port := params.port.getD DEFAULT_PORT
  match params.target with
  | .TargetTcp host =>
      (((tcpConnect host port).map .TcpStream).mapError .SocketError,
       { target := .TargetTcp host, port := params.port })
  | .TargetUnix path0 =>
      let path := path0
      let path := path ++ [pgsqlFileName port]
      (((unixConnect path).map .UnixStream).mapError .SocketError,
       { target := .TargetUnix path0, port := params.port })

/-- The observable network events of one negotiation attempt. -/
inductive NetEvent where
  | wroteBytes (bytes : List Nat)
  | didFlush
  | readByte (b : Nat)
  | sslHandshake
deriving DecidableEq, Repr

/-- The outcomes the network hands to one negotiation attempt: an error
injected (or not) on the frame write, on the flush, and the result of
the one-byte `read_u8`. -/
structure NetEnv (IoErr : Type) where
  writeResult : Option IoErr
  flushResult : Option IoErr
  readResult : Except IoErr Nat
deriving Repr

/-- The body of `initialize_stream` after the mode match: write the
`SslRequest` frame, flush, read one byte; on `'N'` (byte 78) fail with
`NoSslSupport` when required or keep the plain stream when preferred;
on any other byte hand the socket to `ssl::SslStream::new` (oracle
`sslNew`).  Returns the result together with the event trace. -/
def negotiate {S V C IoErr SslErr : Type} (env : NetEnv IoErr)
    (sslNew : C → S → Except SslErr V) (socket : S)
    (ssl_required : Bool) (ctx : C) :
    Except (PostgresConnectError IoErr SslErr) (MaybeSslStream V S) × List NetEvent :=
  match env.writeResult with
  | some e => (.error (.PgConnectStreamError e), [])
  | none =>
    match env.flushResult with
    | some e => (.error (.PgConnectStreamError e), [.wroteBytes sslRequestFrame])
    | none =>
      match env.readResult with
      | .error e =>
          (.error (.PgConnectStreamError e),
           [.wroteBytes sslRequestFrame, .didFlush])
      | .ok b =>
        if b = 78 then
          if ssl_required then
            (.error .NoSslSupport,
             [.wroteBytes sslRequestFrame, .didFlush, .readByte b])
          else
            (.ok (.NormalStream socket),
             [.wroteBytes sslRequestFrame, .didFlush, .readByte b])
        else
          match sslNew ctx socket with
          | .ok stream =>
              (.ok (.SslStream stream),
               [.wroteBytes sslRequestFrame, .didFlush, .readByte b, .sslHandshake])
          | .error err =>
              (.error (.SslError err),
               [.wroteBytes sslRequestFrame, .didFlush, .readByte b, .sslHandshake])

/-- `initialize_stream`: open the socket, return it plain at once when
the mode is `NoSsl`, otherwise negotiate.  The outer second component
is the value of the caller's `params` when the call returns. -/
def initialize_stream {T U V C IoErr SslErr : Type}
    (tcpConnect : String → Nat → Except IoErr T)
    (unixConnect : List String → Except IoErr U)
    (env : NetEnv IoErr)
    (sslNew : C → InternalStream T U → Except SslErr V)
    (params : ConnectParams) (ssl : SslMode C) :
    (Except (PostgresConnectError IoErr SslErr)
        (MaybeSslStream V (InternalStream T U)) × List NetEvent) × ConnectParams :=
  match open_socket tcpConnect unixConnect params with
  | (.error e, ps) => ((.error e, []), ps)
  | (.ok socket, ps) =>
    match ssl with
    | .NoSsl => ((.ok (.NormalStream socket), []), ps)
    | .PreferSsl ctx => (negotiate env sslNew socket false ctx, ps)
    | .RequireSsl ctx => (negotiate env sslNew socket true ctx, ps)

/-- C1: when the mode is `NoSsl`, `initialize_stream` returns
`NormalStream` wrapping exactly the opened transport and the event
trace is empty (no bytes written or read). -/
theorem c1_disabled_returns_plain {T U V C IoErr SslErr : Type}
    (tcpConnect : String → Nat → Except IoErr T)
    (unixConnect : List String → Except IoErr U)
    (env : NetEnv IoErr)
    (sslNew : C → InternalStream T U → Except SslErr V)
    (params ps : ConnectParams) (s : InternalStream T U)
    (h : open_socket tcpConnect unixConnect params
          = ((Except.ok s : Except (PostgresConnectError IoErr SslErr) _), ps)) :
    initialize_stream tcpConnect unixConnect env sslNew params SslMode.NoSsl
      = ((Except.ok (MaybeSslStream.NormalStream s), ([] : List NetEvent)), ps) := by
  unfold initialize_stream
  rw [h]

/-- Witness for C1 at a concrete TCP target. -/
theorem c1_disabled_returns_plain_witness :
    initialize_stream (fun _ _ => (Except.ok 0 : Except Nat Nat))
        (fun _ => (Except.ok 1 : Except Nat Nat))
        ⟨none, none, Except.ok 78⟩
        (fun (_ : Nat) (_ : InternalStream Nat Nat) => (Except.ok 2 : Except Nat Nat))
        ⟨PgTarget.TargetTcp "h", some 9⟩ SslMode.NoSsl
      = ((Except.ok (MaybeSslStream.NormalStream (InternalStream.TcpStream 0)),
          ([] : List NetEvent)),
         ⟨PgTarget.TargetTcp "h", some 9⟩) :=
  c1_disabled_returns_plain _ _ _ _ _ _ _ rfl

/-- C2: when the response byte is `'N'` (78), no handshake event occurs
and the mode decides the result: `RequireSsl` yields `NoSslSupport`,
`PreferSsl` yields `NormalStream` wrapping the transport. -/
theorem c2_decline_byte {T U V C IoErr SslErr : Type}
    (tcpConnect : String → Nat → Except IoErr T)
    (unixConnect : List String → Except IoErr U)
    (sslNew : C → InternalStream T U → Except SslErr V)
    (params ps : ConnectParams) (s : InternalStream T U) (ctx : C)
    (h : open_socket tcpConnect unixConnect params
          = ((Except.ok s : Except (PostgresConnectError IoErr SslErr) _), ps)) :
    (initialize_stream tcpConnect unixConnect ⟨none, none, Except.ok 78⟩ sslNew
        params (SslMode.RequireSsl ctx)
      = ((Except.error PostgresConnectError.NoSslSupport,
          [NetEvent.wroteBytes sslRequestFrame, NetEvent.didFlush, NetEvent.readByte 78]),
         ps))
  ∧ (initialize_stream tcpConnect unixConnect ⟨none, none, Except.ok 78⟩ sslNew
        params (SslMode.PreferSsl ctx)
      = ((Except.ok (MaybeSslStream.NormalStream s),
          [NetEvent.wroteBytes sslRequestFrame, NetEvent.didFlush, NetEvent.readByte 78]),
         ps))
  ∧ NetEvent.sslHandshake ∉
      [NetEvent.wroteBytes sslRequestFrame, NetEvent.didFlush, NetEvent.readByte 78] := by
  refine ⟨?_, ?_, by decide⟩ <;> (unfold initialize_stream; rw [h]; rfl)

/-- Witness for C2 at a concrete Unix-socket target. -/
theorem c2_decline_byte_witness :
    (initialize_stream (fun _ _ => (Except.ok 0 : Except Nat Nat))
        (fun _ => (Except.ok 1 : Except Nat Nat))
        ⟨none, none, Except.ok 78⟩
        (fun (_ : Nat) (_ : InternalStream Nat Nat) => (Except.ok 2 : Except Nat Nat))
        ⟨PgTarget.TargetUnix ["tmp"], none⟩ (SslMode.RequireSsl 0)
      = ((Except.error PostgresConnectError.NoSslSupport,
          [NetEvent.wroteBytes sslRequestFrame, NetEvent.didFlush, NetEvent.readByte 78]),
         ⟨PgTarget.TargetUnix ["tmp"], none⟩))
  ∧ (initialize_stream (fun _ _ => (Except.ok 0 : Except Nat Nat))
        (fun _ => (Except.ok 1 : Except Nat Nat))
        ⟨none, none, Except.ok 78⟩
        (fun (_ : Nat) (_ : InternalStream Nat Nat) => (Except.ok 2 : Except Nat Nat))
        ⟨PgTarget.TargetUnix ["tmp"], none⟩ (SslMode.PreferSsl 0)
      = ((Except.ok (MaybeSslStream.NormalStream (InternalStream.UnixStream 1)),
          [NetEvent.wroteBytes sslRequestFrame, NetEvent.didFlush, NetEvent.readByte 78]),
         ⟨PgTarget.TargetUnix ["tmp"], none⟩))
  ∧ NetEvent.sslHandshake ∉
      [NetEvent.wroteBytes sslRequestFrame, NetEvent.didFlush, NetEvent.readByte 78] :=
  c2_decline_byte _ _ _ _ _ _ _ rfl

/-- C3: any response byte other than 78 (`'N'`) is treated as
acceptance: the handshake is attempted and the outcome is exactly the
handshake's outcome (`SslStream` on success, `SslError` on failure) —
no byte other than `'N'` is rejected. -/
theorem c3_non_decline_accepted {S V C IoErr SslErr : Type}
    (sslNew : C → S → Except SslErr V) (socket : S)
    (ssl_required : Bool) (ctx : C) (b : Nat) (hb : b ≠ 78) :
    ((negotiate (⟨none, none, Except.ok b⟩ : NetEnv IoErr) sslNew socket
        ssl_required ctx).1
      = ((sslNew ctx socket).map MaybeSslStream.SslStream).mapError
          PostgresConnectError.SslError)
  ∧ NetEvent.sslHandshake ∈
      (negotiate (⟨none, none, Except.ok b⟩ : NetEnv IoErr) sslNew socket
        ssl_required ctx).2 := by
  unfold negotiate
  simp only [if_neg hb]
  cases sslNew ctx socket <;> simp [Except.map, Except.mapError]

/-- Witness for C3 at the conventional accept byte `'S'` (83). -/
theorem c3_non_decline_accepted_witness :
    (((negotiate (⟨none, none, Except.ok 83⟩ : NetEnv Nat)
        (fun (_ : Nat) (_ : Nat) => (Except.ok 5 : Except Nat Nat)) 0 true 0).1
      = ((Except.ok 5 : Except Nat Nat).map MaybeSslStream.SslStream).mapError
          PostgresConnectError.SslError)
  ∧ NetEvent.sslHandshake ∈
      (negotiate (⟨none, none, Except.ok 83⟩ : NetEnv Nat)
        (fun (_ : Nat) (_ : Nat) => (Except.ok 5 : Except Nat Nat)) 0 true 0).2) :=
  c3_non_decline_accepted _ _ _ _ _ (by decide)

/-- C4: when the response is taken as acceptance, the trace holds
exactly one handshake event; a successful handshake yields `SslStream`,
a failed one yields `SslError` carrying the provider's error, and the
result is never `NormalStream`. -/
theorem c4_exactly_one_handshake {S V C IoErr SslErr : Type}
    (sslNew : C → S → Except SslErr V) (socket : S)
    (ssl_required : Bool) (ctx : C) (b : Nat) (hb : b ≠ 78) :
    ((negotiate (⟨none, none, Except.ok b⟩ : NetEnv IoErr) sslNew socket
        ssl_required ctx).2.count NetEvent.sslHandshake = 1)
  ∧ (∀ stream, sslNew ctx socket = Except.ok stream →
      (negotiate (⟨none, none, Except.ok b⟩ : NetEnv IoErr) sslNew socket
        ssl_required ctx).1 = Except.ok (MaybeSslStream.SslStream stream))
  ∧ (∀ err, sslNew ctx socket = Except.error err →
      (negotiate (⟨none, none, Except.ok b⟩ : NetEnv IoErr) sslNew socket
        ssl_required ctx).1
        = Except.error (PostgresConnectError.SslError err))
  ∧ (∀ s', (negotiate (⟨none, none, Except.ok b⟩ : NetEnv IoErr) sslNew socket
        ssl_required ctx).1 ≠ Except.ok (MaybeSslStream.NormalStream s')) := by
  unfold negotiate
  simp only [if_neg hb]
  cases h : sslNew ctx socket <;> simp [List.count, hb]

/-- Witness for C4 with a handshake that fails. -/
theorem c4_exactly_one_handshake_witness :
    (((negotiate (⟨none, none, Except.ok 83⟩ : NetEnv Nat)
        (fun (_ : Nat) (_ : Nat) => (Except.error 7 : Except Nat Nat)) 0 false 0).2.count
        NetEvent.sslHandshake = 1)
  ∧ (∀ stream,
      (fun (_ : Nat) (_ : Nat) => (Except.error 7 : Except Nat Nat)) 0 0
          = Except.ok stream →
      (negotiate (⟨none, none, Except.ok 83⟩ : NetEnv Nat)
        (fun (_ : Nat) (_ : Nat) => (Except.error 7 : Except Nat Nat)) 0 false 0).1
        = Except.ok (MaybeSslStream.SslStream stream))
  ∧ (∀ err,
      (fun (_ : Nat) (_ : Nat) => (Except.error 7 : Except Nat Nat)) 0 0
          = Except.error err →
      (negotiate (⟨none, none, Except.ok 83⟩ : NetEnv Nat)
        (fun (_ : Nat) (_ : Nat) => (Except.error 7 : Except Nat Nat)) 0 false 0).1
        = Except.error (PostgresConnectError.SslError err))
  ∧ (∀ s', (negotiate (⟨none, none, Except.ok 83⟩ : NetEnv Nat)
        (fun (_ : Nat) (_ : Nat) => (Except.error 7 : Except Nat Nat)) 0 false 0).1
        ≠ Except.ok (MaybeSslStream.NormalStream s'))) :=
  c4_exactly_one_handshake _ _ _ _ _ (by decide)

/-- C5: for any mode other than `NoSsl`, the first event of the
negotiation is the write of `sslRequestFrame`, which is exactly 8
bytes: the 4-byte big-endian length 8 (`[0,0,0,8]`) followed by the
4-byte big-endian magic code — for TCP and Unix targets alike. -/
theorem c5_request_frame_format {T U V C IoErr SslErr : Type}
    (tcpConnect : String → Nat → Except IoErr T)
    (unixConnect : List String → Except IoErr U)
    (env : NetEnv IoErr)
    (sslNew : C → InternalStream T U → Except SslErr V)
    (params ps : ConnectParams) (s : InternalStream T U) (ssl : SslMode C)
    (h : open_socket tcpConnect unixConnect params
          = ((Except.ok s : Except (PostgresConnectError IoErr SslErr) _), ps))
    (hssl : ssl ≠ SslMode.NoSsl) (hw : env.writeResult = none) :
    sslRequestFrame.length = 8
  ∧ sslRequestFrame.take 4 = u32be 8
  ∧ u32be 8 = [0, 0, 0, 8]
  ∧ sslRequestFrame.drop 4 = u32be SSL_CODE
  ∧ (initialize_stream tcpConnect unixConnect env sslNew params ssl).1.2.head?
      = some (NetEvent.wroteBytes sslRequestFrame) := by
  refine ⟨by decide, by decide, by decide, by decide, ?_⟩
  unfold initialize_stream
  rw [h]
  obtain ⟨w, f, r⟩ := env
  cases ssl with
  | NoSsl => exact absurd rfl hssl
  | PreferSsl ctx =>
    simp only at hw
    subst hw
    unfold negotiate
    cases f with
    | some e => rfl
    | none =>
      cases r with
      | error e => rfl
      | ok b =>
        by_cases hb : b = 78 <;> simp only [hb, if_pos, if_neg] <;> try rfl
        cases sslNew ctx s <;> rfl
  | RequireSsl ctx =>
    simp only at hw
    subst hw
    unfold negotiate
    cases f with
    | some e => rfl
    | none =>
      cases r with
      | error e => rfl
      | ok b =>
        by_cases hb : b = 78 <;> simp only [hb, if_pos, if_neg] <;> try rfl
        cases sslNew ctx s <;> rfl

/-- Witness for C5 at a concrete TCP target in `RequireSsl` mode. -/
theorem c5_request_frame_format_witness :
    (sslRequestFrame.length = 8
  ∧ sslRequestFrame.take 4 = u32be 8
  ∧ u32be 8 = [0, 0, 0, 8]
  ∧ sslRequestFrame.drop 4 = u32be SSL_CODE
  ∧ (initialize_stream (fun _ _ => (Except.ok 0 : Except Nat Nat))
        (fun _ => (Except.ok 1 : Except Nat Nat))
        ⟨none, none, Except.ok 83⟩
        (fun (_ : Nat) (_ : InternalStream Nat Nat) => (Except.ok 2 : Except Nat Nat))
        ⟨PgTarget.TargetTcp "h", none⟩ (SslMode.RequireSsl 0)).1.2.head?
      = some (NetEvent.wroteBytes sslRequestFrame)) :=
  c5_request_frame_format _ _ _ _ _ _ _ _ rfl (by decide) rfl

/-- C6: `open_socket` resolves the port as the supplied one, or 5432
when unset; a TCP target connects to `(host, resolved port)`; a Unix
target connects to the directory joined with `.s.PGSQL.<port>`, and
port 5432 yields the filename `.s.PGSQL.5432` exactly. -/
theorem c6_port_and_address_resolution {T U IoErr SslErr : Type}
    (tcpConnect : String → Nat → Except IoErr T)
    (unixConnect : List String → Except IoErr U) :
    (∀ host p,
      (open_socket tcpConnect unixConnect ⟨PgTarget.TargetTcp host, some p⟩
        : Except (PostgresConnectError IoErr SslErr) _ × _).1
        = ((tcpConnect host p).map InternalStream.TcpStream).mapError
            PostgresConnectError.SocketError)
  ∧ (∀ host,
      (open_socket tcpConnect unixConnect ⟨PgTarget.TargetTcp host, none⟩
        : Except (PostgresConnectError IoErr SslErr) _ × _).1
        = ((tcpConnect host 5432).map InternalStream.TcpStream).mapError
            PostgresConnectError.SocketError)
  ∧ (∀ path p,
      (open_socket tcpConnect unixConnect ⟨PgTarget.TargetUnix path, some p⟩
        : Except (PostgresConnectError IoErr SslErr) _ × _).1
        = ((unixConnect (path ++ [pgsqlFileName p])).map
            InternalStream.UnixStream).mapError PostgresConnectError.SocketError)
  ∧ (∀ path,
      (open_socket tcpConnect unixConnect ⟨PgTarget.TargetUnix path, none⟩
        : Except (PostgresConnectError IoErr SslErr) _ × _).1
        = ((unixConnect (path ++ [pgsqlFileName 5432])).map
            InternalStream.UnixStream).mapError PostgresConnectError.SocketError)
  ∧ pgsqlFileName 5432 = ".s.PGSQL.5432" :=
  ⟨fun _ _ => rfl, fun _ => rfl, fun _ _ => rfl, fun _ => rfl, rfl⟩

/-- C7: when the OS connect fails, `open_socket` returns `SocketError`
carrying the underlying OS error — for TCP and Unix targets alike; the
single oracle call shows no retry is made. -/
theorem c7_connect_failure_socket_error {T U IoErr SslErr : Type}
    (tcpConnect : String → Nat → Except IoErr T)
    (unixConnect : List String → Except IoErr U)
    (host : String) (path : List String) (p : Nat) (e : IoErr) :
    (tcpConnect host p = Except.error e →
      (open_socket tcpConnect unixConnect ⟨PgTarget.TargetTcp host, some p⟩
        : Except (PostgresConnectError IoErr SslErr) (InternalStream T U) × _).1
        = Except.error (PostgresConnectError.SocketError e))
  ∧ (unixConnect (path ++ [pgsqlFileName p]) = Except.error e →
      (open_socket tcpConnect unixConnect ⟨PgTarget.TargetUnix path, some p⟩
        : Except (PostgresConnectError IoErr SslErr) (InternalStream T U) × _).1
        = Except.error (PostgresConnectError.SocketError e)) := by
  constructor <;> (intro h; simp [open_socket, h, Except.map, Except.mapError])

/-- Witness for C7: both target kinds with connects that fail with
OS error 7. -/
theorem c7_connect_failure_socket_error_witness :
    ((fun (_ : String) (_ : Nat) => (Except.error 7 : Except Nat Nat)) "h" 1
        = Except.error 7
    → (open_socket (fun _ _ => (Except.error 7 : Except Nat Nat))
        (fun _ => (Except.error 7 : Except Nat Nat))
        ⟨PgTarget.TargetTcp "h", some 1⟩
        : Except (PostgresConnectError Nat Nat) (InternalStream Nat Nat) × _).1
        = Except.error (PostgresConnectError.SocketError 7))
  ∧ ((fun (_ : List String) => (Except.error 7 : Except Nat Nat))
        (["tmp"] ++ [pgsqlFileName 1]) = Except.error 7
    → (open_socket (fun _ _ => (Except.error 7 : Except Nat Nat))
        (fun _ => (Except.error 7 : Except Nat Nat))
        ⟨PgTarget.TargetUnix ["tmp"], some 1⟩
        : Except (PostgresConnectError Nat Nat) (InternalStream Nat Nat) × _).1
        = Except.error (PostgresConnectError.SocketError 7)) :=
  c7_connect_failure_socket_error
    (fun _ _ => (Except.error 7 : Except Nat Nat))
    (fun _ => (Except.error 7 : Except Nat Nat)) "h" ["tmp"] 1 7

/-- C8: an I/O error injected on the frame write, the flush, or the
one-byte read makes the negotiation return that error
(`PgConnectStreamError`) at once: the trace shows no handshake and no
later step is taken. -/
theorem c8_io_error_terminal {S V C IoErr SslErr : Type}
    (sslNew : C → S → Except SslErr V) (socket : S)
    (ssl_required : Bool) (ctx : C) (e : IoErr)
    (fr : Option IoErr) (rr : Except IoErr Nat) :
    (negotiate (⟨some e, fr, rr⟩ : NetEnv IoErr) sslNew socket ssl_required ctx
      = (Except.error (PostgresConnectError.PgConnectStreamError e), []))
  ∧ (negotiate (⟨none, some e, rr⟩ : NetEnv IoErr) sslNew socket ssl_required ctx
      = (Except.error (PostgresConnectError.PgConnectStreamError e),
         [NetEvent.wroteBytes sslRequestFrame]))
  ∧ (negotiate (⟨none, none, Except.error e⟩ : NetEnv IoErr) sslNew socket
        ssl_required ctx
      = (Except.error (PostgresConnectError.PgConnectStreamError e),
         [NetEvent.wroteBytes sslRequestFrame, NetEvent.didFlush]))
  ∧ NetEvent.sslHandshake ∉
      [NetEvent.wroteBytes sslRequestFrame, NetEvent.didFlush] :=
  ⟨rfl, rfl, rfl, by decide⟩

/-- C9: `read`, `write` and `flush` on a `MaybeSslStream` return
exactly what the same operation on the held underlying stream returns
(same bytes or error for `read`, same error for `write`/`flush`), for
both variants: the dispatch is observably transparent. -/
theorem c9_dispatch_transparent {V S IoErr : Type}
    (sslOps : StreamOps V IoErr) (ops : StreamOps S IoErr)
    (v : V) (s : S) (n : Nat) (buf : List Nat) :
    ((MaybeSslStream.read sslOps ops (.NormalStream s) n).map Prod.fst
        = (ops.read s n).map Prod.fst)
  ∧ ((MaybeSslStream.read sslOps ops (.SslStream v) n).map Prod.fst
        = (sslOps.read v n).map Prod.fst)
  ∧ ((MaybeSslStream.write sslOps ops (.NormalStream s) buf).map (fun _ => ())
        = (ops.write s buf).map (fun _ => ()))
  ∧ ((MaybeSslStream.write sslOps ops (.SslStream v) buf).map (fun _ => ())
        = (sslOps.write v buf).map (fun _ => ()))
  ∧ ((MaybeSslStream.flush sslOps ops (.NormalStream s)).map (fun _ => ())
        = (ops.flush s).map (fun _ => ()))
  ∧ ((MaybeSslStream.flush sslOps ops (.SslStream v)).map (fun _ => ())
        = (sslOps.flush v).map (fun _ => ())) := by
  refine ⟨?_, ?_, ?_, ?_, ?_, ?_⟩ <;>
    simp only [MaybeSslStream.read, MaybeSslStream.write, MaybeSslStream.flush] <;>
    first
      | (cases ops.read s n <;> rfl)
      | (cases sslOps.read v n <;> rfl)
      | (cases ops.write s buf <;> rfl)
      | (cases sslOps.write v buf <;> rfl)
      | (cases ops.flush s <;> rfl)
      | (cases sslOps.flush v <;> rfl)

/-- C10: `open_socket` and `initialize_stream` leave the caller's
`ConnectParams` unchanged on every path: the final value of the
borrowed `params` equals the supplied one (for a Unix target the
filename is pushed onto a clone of the path), while the connect for a
Unix target still uses the extended path. -/
theorem c10_params_unmodified {T U V C IoErr SslErr : Type}
    (tcpConnect : String → Nat → Except IoErr T)
    (unixConnect : List String → Except IoErr U)
    (env : NetEnv IoErr)
    (sslNew : C → InternalStream T U → Except SslErr V)
    (params : ConnectParams) (ssl : SslMode C) :
    ((open_socket tcpConnect unixConnect params
        : Except (PostgresConnectError IoErr SslErr) _ × _).2 = params)
  ∧ ((initialize_stream tcpConnect unixConnect env sslNew params ssl).2 = params)
  ∧ (∀ path p,
      (open_socket tcpConnect unixConnect ⟨PgTarget.TargetUnix path, p⟩
        : Except (PostgresConnectError IoErr SslErr) _ × _).1
        = ((unixConnect (path ++ [pgsqlFileName (p.getD DEFAULT_PORT)])).map
            InternalStream.UnixStream).mapError PostgresConnectError.SocketError) := by
  have hopen : ∀ q : ConnectParams,
      (open_socket tcpConnect unixConnect q
        : Except (PostgresConnectError IoErr SslErr) (InternalStream T U) × _).2 = q := by
    rintro ⟨t, p⟩
    cases t <;> rfl
  refine ⟨hopen params, ?_, fun path p => rfl⟩
  unfold initialize_stream
  rcases hos : open_socket tcpConnect unixConnect params with ⟨res, ps⟩
  have hps : ps = params := by
    have := hopen params
    rw [hos] at this
    exact this
  subst hps
  cases res <;> cases ssl <;> rfl
